import Mathlib

/-!
Verification of the Workout & Nutrition Tracker backend (src/main.py and
src/schemas.py) against its natural-language specification.

The code is shallowly embedded: Python dicts holding stored documents become
association lists over a value type, Pydantic/FastAPI validation becomes
explicit validator functions returning `Except`, numeric JSON values become
rationals, and the document store (database.py, not part of src/) is modelled
from the spec as a list of documents with filter/limit reads and append
writes.
-/

/-- A document field value: strings, integers, and store object identifiers.
Enough to model the documents the endpoints in src/main.py manipulate. -/
inductive Val where
  | vStr (s : String)
  | vInt (n : Int)
  | vOid (s : String)
deriving DecidableEq, Repr

/-- Python `str(value)`, as used in `str(d.pop("_id"))` in src/main.py. -/
def valStr : Val → String
  | .vStr s => s
  | .vInt n => toString n
  | .vOid s => s

/-- A stored document: a Python dict modelled as an association list.
Equality of the underlying key-to-value map models Python dict equality. -/
abbrev Doc := List (String × Val)

/-- Dict key lookup (`d[k]` / `k in d`): first binding of the key wins. -/
def lookupKey (k : String) : Doc → Option Val
  | [] => none
  | (k2, v) :: rest => if k2 = k then some v else lookupKey k rest

/-- Dict key removal (`d.pop(k)` dropping the key). -/
def eraseKey (k : String) : Doc → Doc
  | [] => []
  | (k2, v) :: rest => if k2 = k then eraseKey k rest else (k2, v) :: eraseKey k rest

/-- `to_public` from src/main.py: on a non-empty document holding the store
field `_id`, remove `_id` and bind `id` to its stringified value (overwriting
any existing `id` binding, as the Python assignment does); otherwise return
the document unchanged. The result is written with the `id` binding last;
as a key-to-value map this is exactly the Python dict produced. -/
def to_public (d : Doc) : Doc :=
  if d = [] then d
  else
    match lookupKey "_id" d with
    | none => d
    | some v => eraseKey "id" (eraseKey "_id" d) ++ [("id", Val.vStr (valStr v))]

theorem lookupKey_eraseKey_self (k : String) (d : Doc) :
    lookupKey k (eraseKey k d) = none := by
  induction d with
  | nil => rfl
  | cons p rest ih =>
    obtain ⟨k2, v⟩ := p
    by_cases h : k2 = k
    · simpa [eraseKey, h] using ih
    · simpa [eraseKey, lookupKey, h] using ih

theorem lookupKey_eraseKey_ne (k k2 : String) (d : Doc) (h : k ≠ k2) :
    lookupKey k (eraseKey k2 d) = lookupKey k d := by
  induction d with
  | nil => rfl
  | cons p rest ih =>
    obtain ⟨k3, v⟩ := p
    by_cases h3 : k3 = k2
    · subst h3
      simpa [eraseKey, lookupKey, Ne.symm h] using ih
    · by_cases hk : k3 = k
      · subst hk
        simp [eraseKey, lookupKey, h3]
      · simpa [eraseKey, lookupKey, h3, hk] using ih

theorem lookupKey_append (k : String) (d1 d2 : Doc) :
    lookupKey k (d1 ++ d2) =
      match lookupKey k d1 with
      | some v => some v
      | none => lookupKey k d2 := by
  induction d1 with
  | nil => simp [lookupKey]
  | cons p rest ih =>
    obtain ⟨k2, v⟩ := p
    by_cases h : k2 = k
    · simp [lookupKey, h]
    · simpa [lookupKey, h] using ih

theorem lookupKey_to_public_of_ne (d : Doc) (k : String)
    (h1 : k ≠ "_id") (h2 : k ≠ "id") :
    lookupKey k (to_public d) = lookupKey k d := by
  unfold to_public
  by_cases hd : d = []
  · simp [hd]
  · simp only [hd, if_false]
    cases hid : lookupKey "_id" d with
    | none => rfl
    | some v =>
      rw [lookupKey_append]
      rw [lookupKey_eraseKey_ne _ _ _ h2, lookupKey_eraseKey_ne _ _ _ h1]
      cases hk : lookupKey k d with
      | some w => rfl
      | none => simp [lookupKey, Ne.symm h2]

theorem lookupKey_to_public_underscore_id (d : Doc) :
    lookupKey "_id" (to_public d) = none := by
  unfold to_public
  by_cases hd : d = []
  · simp [hd, lookupKey]
  · simp only [hd, if_false]
    cases hid : lookupKey "_id" d with
    | none => simpa using hid
    | some v =>
      rw [lookupKey_append]
      rw [lookupKey_eraseKey_ne _ _ _ (by decide), lookupKey_eraseKey_self]
      simp [lookupKey]

/-- C7: `to_public` is idempotent — applying it twice equals applying it
once — and the store's internal `_id` field is absent after the first
application. -/
theorem to_public_idempotent (d : Doc) :
    to_public (to_public d) = to_public d ∧
      lookupKey "_id" (to_public d) = none := by
  refine ⟨?_, lookupKey_to_public_underscore_id d⟩
  by_cases hd : d = []
  · simp [hd, to_public]
  · have hnoid : lookupKey "_id" (to_public d) = none :=
      lookupKey_to_public_underscore_id d
    have hpub : to_public d ≠ [] := by
      rw [to_public, if_neg hd]
      cases hid : lookupKey "_id" d with
      | none => exact hd
      | some v => simp
    rw [to_public, if_neg hpub, hnoid]

/-- A stored document that carries both the internal `_id` field and a
pre-existing `id` field: `to_public` overwrites the `id` binding. -/
def docWithBothIds : Doc := [("_id", Val.vOid "abc123"), ("id", Val.vStr "orig")]

/-- C8 counterexample: the claim says `to_public` leaves every field other
than the internal identifier unchanged, but on a document already holding an
`id` field next to `_id` the `id` field is overwritten with the stringified
`_id`. -/
theorem to_public_frame_cex :
    lookupKey "id" (to_public docWithBothIds) ≠ lookupKey "id" docWithBothIds := by
  decide

/-- C8 (amended): `to_public` leaves every field other than the internal
identifier `_id` and the field `id` unchanged, renames `_id` to a
string-valued `id` field (overwriting any pre-existing `id` binding), and is
the identity on documents that contain no `_id` field. -/
theorem to_public_frame (d : Doc) :
    (∀ k, k ≠ "_id" → k ≠ "id" →
        lookupKey k (to_public d) = lookupKey k d) ∧
    (∀ v, lookupKey "_id" d = some v →
        lookupKey "id" (to_public d) = some (Val.vStr (valStr v))) ∧
    (lookupKey "_id" d = none → to_public d = d) := by
  refine ⟨fun k h1 h2 => lookupKey_to_public_of_ne d k h1 h2, ?_, ?_⟩
  · intro v hv
    have hd : d ≠ [] := by
      intro h
      rw [h] at hv
      exact Option.noConfusion hv
    unfold to_public
    simp only [hd, if_false, hv]
    rw [lookupKey_append, lookupKey_eraseKey_self]
    simp [lookupKey]
  · intro hnone
    unfold to_public
    by_cases hd : d = []
    · simp [hd]
    · simp [hd, hnone]

/-- Concrete document for the C8 witness: `_id` next to an ordinary field. -/
def docPlainField : Doc := [("_id", Val.vOid "x1"), ("title", Val.vStr "Push Day")]

theorem to_public_frame_witness :
    lookupKey "title" (to_public docPlainField) = lookupKey "title" docPlainField ∧
      lookupKey "id" (to_public docPlainField) = some (Val.vStr "x1") :=
  ⟨(to_public_frame docPlainField).1 "title" (by decide) (by decide),
    (to_public_frame docPlainField).2.1 (Val.vOid "x1") (by decide)⟩

/-!
## Schema validation (src/schemas.py)

Pydantic models become payload types whose fields are `Option`-valued (absent
vs. present), validator functions that collect one error per violated field
constraint in declaration order, and validated entity types. Numeric JSON
values are modelled as rationals; the concrete bounds appearing in the
schemas (1, 20, 100, 0, 0.1) are exactly representable, so rational
comparison agrees with the floating-point comparison Pydantic performs.
-/

/-- A single validation error: the violated field and the constraint,
mirroring the field/constraint information a Pydantic ValidationError
carries. -/
structure FieldError where
  field : String
  constraint : String
deriving DecidableEq, Repr

/-- Inbound payload for the `Exercise` model: every field may be absent. -/
structure ExercisePayload where
  name : Option String
  sets : Option Int
  reps : Option Int
  weight : Option ℚ
  notes : Option String
deriving DecidableEq, Repr

/-- Validated `Exercise` entity (src/schemas.py, class Exercise). -/
structure Exercise where
  name : String
  sets : Int
  reps : Int
  weight : Option ℚ
  notes : Option String
deriving DecidableEq, Repr

/-- Errors for a required integer field with inclusive bounds, as produced
by `Field(..., ge=lo, le=hi)`. -/
def intBoundErrors (fld : String) (lo hi : Int) (v : Option Int) : List FieldError :=
  match v with
  | none => [⟨fld, "missing"⟩]
  | some x => if x < lo then [⟨fld, "ge"⟩] else if hi < x then [⟨fld, "le"⟩] else []

/-- Errors for an optional non-negative rational field
(`Field(None, ge=0)` / `Field(0, ge=0)`): absent is fine. -/
def optNonnegErrors (fld : String) (v : Option ℚ) : List FieldError :=
  match v with
  | none => []
  | some x => if x < 0 then [⟨fld, "ge"⟩] else []

/-- All constraint violations of an Exercise payload, in field declaration
order (name, sets, reps, weight, notes). -/
def exerciseErrors (p : ExercisePayload) : List FieldError :=
  (match p.name with | none => [⟨"name", "missing"⟩] | some _ => [])
    ++ intBoundErrors "sets" 1 20 p.sets
    ++ intBoundErrors "reps" 1 100 p.reps
    ++ optNonnegErrors "weight" p.weight

/-- Pydantic validation of an Exercise payload: all-or-nothing — the full
entity when no field violates its constraint, otherwise the list of every
violation. -/
def validateExercise (p : ExercisePayload) : Except (List FieldError) Exercise :=
  match p.name, p.sets, p.reps with
  | some nm, some s, some r =>
      if exerciseErrors p = [] then
        Except.ok ⟨nm, s, r, p.weight, p.notes⟩
      else
        Except.error (exerciseErrors p)
  | _, _, _ => Except.error (exerciseErrors p)

/-- C1: with `name` present and `weight` absent or non-negative, Exercise
validation succeeds exactly when `sets` lies in [1,20] and `reps` in [1,100];
any `sets` or `reps` outside these ranges makes validation fail with a bounds
violation (a ge/le error on that field). -/
theorem exercise_validation_bounds
    (p : ExercisePayload) (nm : String) (s r : Int)
    (hn : p.name = some nm) (hs : p.sets = some s) (hr : p.reps = some r)
    (hw : p.weight = none ∨ ∃ w, p.weight = some w ∧ 0 ≤ w) :
    ((1 ≤ s ∧ s ≤ 20 ∧ 1 ≤ r ∧ r ≤ 100) →
        validateExercise p = Except.ok ⟨nm, s, r, p.weight, p.notes⟩) ∧
    ((s < 1 ∨ 20 < s ∨ r < 1 ∨ 100 < r) →
        ∃ es, validateExercise p = Except.error es ∧
          ∃ e, e ∈ es ∧ (e.field = "sets" ∨ e.field = "reps") ∧
            (e.constraint = "ge" ∨ e.constraint = "le")) := by
  have hwe : optNonnegErrors "weight" p.weight = [] := by
    rcases hw with h | ⟨w, hw2, h0⟩
    · simp [optNonnegErrors, h]
    · simp [optNonnegErrors, hw2, not_lt.mpr h0]
  constructor
  · rintro ⟨h1, h2, h3, h4⟩
    have he : exerciseErrors p = [] := by
      simp [exerciseErrors, hn, hs, hr, hwe, intBoundErrors,
        not_lt.mpr h1, not_lt.mpr h2, not_lt.mpr h3, not_lt.mpr h4]
    simp only [validateExercise, hn, hs, hr]
    rw [if_pos he]
  · intro hout
    have hne : exerciseErrors p ≠ [] := by
      rcases hout with h | h | h | h
      · simp [exerciseErrors, hn, hs, hr, intBoundErrors, h, hwe]
      · have h1 : ¬s < 1 := by omega
        simp [exerciseErrors, hn, hs, hr, intBoundErrors, h, h1, hwe]
      · simp [exerciseErrors, hn, hs, hr, intBoundErrors, h, hwe]
      · have h1 : ¬r < 1 := by omega
        simp [exerciseErrors, hn, hs, hr, intBoundErrors, h, h1, hwe]
    refine ⟨exerciseErrors p, ?_, ?_⟩
    · simp only [validateExercise, hn, hs, hr]
      rw [if_neg hne]
    · rcases hout with h | h | h | h
      · exact ⟨⟨"sets", "ge"⟩,
          by simp [exerciseErrors, hn, hs, hr, intBoundErrors, h],
          Or.inl rfl, Or.inl rfl⟩
      · have h1 : ¬s < 1 := by omega
        exact ⟨⟨"sets", "le"⟩,
          by simp [exerciseErrors, hn, hs, hr, intBoundErrors, h, h1],
          Or.inl rfl, Or.inr rfl⟩
      · exact ⟨⟨"reps", "ge"⟩,
          by simp [exerciseErrors, hn, hs, hr, intBoundErrors, h],
          Or.inr rfl, Or.inl rfl⟩
      · have h1 : ¬r < 1 := by omega
        exact ⟨⟨"reps", "le"⟩,
          by simp [exerciseErrors, hn, hs, hr, intBoundErrors, h, h1],
          Or.inr rfl, Or.inr rfl⟩

/-- A concrete in-bounds Exercise payload (Bench Press, 4 sets of 8). -/
def benchPressPayload : ExercisePayload :=
  ⟨some "Bench Press", some 4, some 8, none, none⟩

theorem exercise_validation_bounds_witness :
    validateExercise benchPressPayload =
      Except.ok ⟨"Bench Press", 4, 8, none, none⟩ :=
  (exercise_validation_bounds benchPressPayload "Bench Press" 4 8 rfl rfl rfl
      (Or.inl rfl)).1 (by decide)

/-- Inbound payload for the `WorkoutTemplate` model. -/
structure WorkoutTemplatePayload where
  title : Option String
  description : Option String
  exercises : Option (List ExercisePayload)
  level : Option String
deriving DecidableEq, Repr

/-- Validated `WorkoutTemplate` entity (src/schemas.py). `exercises`
defaults to the empty list when absent (`default_factory=list`). -/
structure WorkoutTemplate where
  title : String
  description : Option String
  exercises : List Exercise
  level : Option String
deriving DecidableEq, Repr

/-- All constraint violations of a WorkoutTemplate payload: `title` is the
only required scalar; each embedded exercise is validated in turn. -/
def workoutTemplateErrors (p : WorkoutTemplatePayload) : List FieldError :=
  (match p.title with | none => [⟨"title", "missing"⟩] | some _ => [])
    ++ ((p.exercises.getD []).map exerciseErrors).flatten

/-- The embedded exercises of a payload whose validation succeeded. -/
def validatedExercises (l : List ExercisePayload) : List Exercise :=
  l.filterMap (fun ep => (validateExercise ep).toOption)

/-- Pydantic validation of a WorkoutTemplate payload (all-or-nothing). -/
def validateWorkoutTemplate (p : WorkoutTemplatePayload) :
    Except (List FieldError) WorkoutTemplate :=
  match p.title with
  | some t =>
      if workoutTemplateErrors p = [] then
        Except.ok ⟨t, p.description, validatedExercises (p.exercises.getD []), p.level⟩
      else
        Except.error (workoutTemplateErrors p)
  | none => Except.error (workoutTemplateErrors p)

/-- Inbound payload for the `WorkoutSession` model. The `session_date`
field carries the ISO-8601 date text; date parsing itself is abstracted. -/
structure WorkoutSessionPayload where
  user_id : Option String
  session_date : Option String
  title : Option String
  exercises : Option (List ExercisePayload)
  notes : Option String
deriving DecidableEq, Repr

/-- Validated `WorkoutSession` entity (src/schemas.py). -/
structure WorkoutSession where
  user_id : String
  session_date : String
  title : String
  exercises : List Exercise
  notes : Option String
deriving DecidableEq, Repr

/-- All constraint violations of a WorkoutSession payload, in field
declaration order (user_id, session_date, title, exercises, notes). -/
def workoutSessionErrors (p : WorkoutSessionPayload) : List FieldError :=
  (match p.user_id with | none => [⟨"user_id", "missing"⟩] | some _ => [])
    ++ (match p.session_date with | none => [⟨"session_date", "missing"⟩] | some _ => [])
    ++ (match p.title with | none => [⟨"title", "missing"⟩] | some _ => [])
    ++ ((p.exercises.getD []).map exerciseErrors).flatten

/-- Pydantic validation of a WorkoutSession payload (all-or-nothing). -/
def validateWorkoutSession (p : WorkoutSessionPayload) :
    Except (List FieldError) WorkoutSession :=
  match p.user_id, p.session_date, p.title with
  | some u, some dt, some t =>
      if workoutSessionErrors p = [] then
        Except.ok ⟨u, dt, t, validatedExercises (p.exercises.getD []), p.notes⟩
      else
        Except.error (workoutSessionErrors p)
  | _, _, _ => Except.error (workoutSessionErrors p)

/-- Inbound payload for the `FoodItem` model. -/
structure FoodItemPayload where
  barcode : Option String
  name : Option String
  brand : Option String
  calories : Option ℚ
  protein : Option ℚ
  carbs : Option ℚ
  fat : Option ℚ
  serving_size : Option String
deriving DecidableEq, Repr

/-- Validated `FoodItem` entity (src/schemas.py): `protein`/`carbs`/`fat`
default to 0 when absent. -/
structure FoodItem where
  barcode : Option String
  name : String
  brand : Option String
  calories : ℚ
  protein : ℚ
  carbs : ℚ
  fat : ℚ
  serving_size : Option String
deriving DecidableEq, Repr

/-- All constraint violations of a FoodItem payload: `name` and `calories`
required, `calories` and the macro fields non-negative. -/
def foodItemErrors (p : FoodItemPayload) : List FieldError :=
  (match p.name with | none => [⟨"name", "missing"⟩] | some _ => [])
    ++ (match p.calories with
        | none => [⟨"calories", "missing"⟩]
        | some c => if c < 0 then [⟨"calories", "ge"⟩] else [])
    ++ optNonnegErrors "protein" p.protein
    ++ optNonnegErrors "carbs" p.carbs
    ++ optNonnegErrors "fat" p.fat

/-- Pydantic validation of a FoodItem payload (all-or-nothing). -/
def validateFoodItem (p : FoodItemPayload) : Except (List FieldError) FoodItem :=
  match p.name, p.calories with
  | some nm, some c =>
      if foodItemErrors p = [] then
        Except.ok ⟨p.barcode, nm, p.brand, c, p.protein.getD 0, p.carbs.getD 0,
          p.fat.getD 0, p.serving_size⟩
      else
        Except.error (foodItemErrors p)
  | _, _ => Except.error (foodItemErrors p)

/-- Inbound payload for the `FoodLog` model. -/
structure FoodLogPayload where
  user_id : Option String
  log_date : Option String
  meal : Option String
  item : Option FoodItemPayload
  quantity : Option ℚ
deriving DecidableEq, Repr

/-- Validated `FoodLog` entity (src/schemas.py): `meal` defaults to
"unspecified", `quantity` to 1. -/
structure FoodLog where
  user_id : String
  log_date : String
  meal : String
  item : FoodItem
  quantity : ℚ
deriving DecidableEq, Repr

/-- All constraint violations of a FoodLog payload, in field declaration
order (user_id, log_date, meal, item, quantity); embedded FoodItem errors
are included, and `quantity` must be at least 0.1. -/
def foodLogErrors (p : FoodLogPayload) : List FieldError :=
  (match p.user_id with | none => [⟨"user_id", "missing"⟩] | some _ => [])
    ++ (match p.log_date with | none => [⟨"log_date", "missing"⟩] | some _ => [])
    ++ (match p.item with
        | none => [⟨"item", "missing"⟩]
        | some ip => foodItemErrors ip)
    ++ (match p.quantity with
        | none => []
        | some v => if v < (0.1 : ℚ) then [⟨"quantity", "ge"⟩] else [])

/-- Pydantic validation of a FoodLog payload (all-or-nothing). -/
def validateFoodLog (p : FoodLogPayload) : Except (List FieldError) FoodLog :=
  match p.user_id, p.log_date, p.item with
  | some u, some dt, some ip =>
      match validateFoodItem ip with
      | Except.ok it =>
          if foodLogErrors p = [] then
            Except.ok ⟨u, dt, p.meal.getD "unspecified", it, p.quantity.getD 1⟩
          else
            Except.error (foodLogErrors p)
      | Except.error _ => Except.error (foodLogErrors p)
  | _, _, _ => Except.error (foodLogErrors p)

/-- Modelled from the spec: `createDocument(collectionName, validatedEntity)`
of the Document Store Gateway (database.py is not part of src/). A
collection is a list of validated documents; insertion appends the document
and returns its newly assigned opaque identifier. -/
def createDocument {α : Type} (st : List α) (e : α) : List α × String :=
  (st ++ [e], toString st.length)

/-- POST /api/templates (src/main.py create_template): validation happens
before the handler runs; only a fully validated payload is persisted. -/
def create_template (st : List WorkoutTemplate) (p : WorkoutTemplatePayload) :
    List WorkoutTemplate × Except (List FieldError) String :=
  match validateWorkoutTemplate p with
  | Except.error es => (st, Except.error es)
  | Except.ok t => ((createDocument st t).1, Except.ok (createDocument st t).2)

/-- POST /api/sessions (src/main.py create_session). -/
def create_session (st : List WorkoutSession) (p : WorkoutSessionPayload) :
    List WorkoutSession × Except (List FieldError) String :=
  match validateWorkoutSession p with
  | Except.error es => (st, Except.error es)
  | Except.ok s => ((createDocument st s).1, Except.ok (createDocument st s).2)

/-- POST /api/food/log (src/main.py create_food_log). -/
def create_food_log (st : List FoodLog) (p : FoodLogPayload) :
    List FoodLog × Except (List FieldError) String :=
  match validateFoodLog p with
  | Except.error es => (st, Except.error es)
  | Except.ok l => ((createDocument st l).1, Except.ok (createDocument st l).2)

theorem validateWorkoutTemplate_error (p : WorkoutTemplatePayload)
    (h : workoutTemplateErrors p ≠ []) :
    validateWorkoutTemplate p = Except.error (workoutTemplateErrors p) := by
  cases ht : p.title <;> simp [validateWorkoutTemplate, ht, h]

theorem validateWorkoutSession_error (p : WorkoutSessionPayload)
    (h : workoutSessionErrors p ≠ []) :
    validateWorkoutSession p = Except.error (workoutSessionErrors p) := by
  cases hu : p.user_id <;> cases hd : p.session_date <;> cases ht : p.title <;>
    simp [validateWorkoutSession, hu, hd, ht, h]

theorem validateFoodLog_error (p : FoodLogPayload)
    (h : foodLogErrors p ≠ []) :
    validateFoodLog p = Except.error (foodLogErrors p) := by
  cases hu : p.user_id <;> cases hd : p.log_date <;> cases hi : p.item <;>
    simp [validateFoodLog, hu, hd, hi, h]
  case some.some.some u dt ip =>
    cases hv : validateFoodItem ip <;> simp [hv, h]

/-- C6: every write payload violating any field constraint is rejected
whole — validation fails with the list of violated field/constraint pairs,
and the store state is unchanged (no document persisted) — for all three
write endpoints (templates, sessions, food logs). -/
theorem writes_all_or_nothing :
    (∀ (st : List WorkoutTemplate) (p : WorkoutTemplatePayload),
        workoutTemplateErrors p ≠ [] →
          create_template st p = (st, Except.error (workoutTemplateErrors p))) ∧
    (∀ (st : List WorkoutSession) (p : WorkoutSessionPayload),
        workoutSessionErrors p ≠ [] →
          create_session st p = (st, Except.error (workoutSessionErrors p))) ∧
    (∀ (st : List FoodLog) (p : FoodLogPayload),
        foodLogErrors p ≠ [] →
          create_food_log st p = (st, Except.error (foodLogErrors p))) := by
  refine ⟨fun st p h => ?_, fun st p h => ?_, fun st p h => ?_⟩
  · simp [create_template, validateWorkoutTemplate_error p h]
  · simp [create_session, validateWorkoutSession_error p h]
  · simp [create_food_log, validateFoodLog_error p h]

/-- A valid FoodItem payload (an apple). -/
def applePayload : FoodItemPayload :=
  ⟨none, some "Apple", none, some 52, none, none, none, none⟩

/-- A FoodLog payload whose only violation is `quantity = 0.05`, below the
0.1 minimum. -/
def badQuantityLog : FoodLogPayload :=
  ⟨some "u1", some "2024-01-01", none, some applePayload, some (0.05 : ℚ)⟩

theorem writes_all_or_nothing_witness :
    create_food_log [] badQuantityLog =
      ([], Except.error (foodLogErrors badQuantityLog)) :=
  writes_all_or_nothing.2.2 [] badQuantityLog (by
    norm_num [foodLogErrors, badQuantityLog, applePayload, foodItemErrors,
      optNonnegErrors])

/-!
## Prebuilt templates and seeding (src/main.py)
-/

/-- PREBUILT_TEMPLATES from src/main.py: the three fixed workout templates,
with exercise `weight`/`notes` defaulting to `None` where the source dicts
omit them. -/
def PREBUILT_TEMPLATES : List WorkoutTemplate :=
  [⟨"Push Day (Chest/Shoulders/Triceps)", some "Classic push workout",
    [⟨"Bench Press", 4, 8, none, none⟩,
     ⟨"Incline Dumbbell Press", 3, 10, none, none⟩,
     ⟨"Overhead Press", 3, 8, none, none⟩,
     ⟨"Lateral Raise", 3, 15, none, none⟩,
     ⟨"Tricep Pushdown", 3, 12, none, none⟩], some "Intermediate"⟩,
   ⟨"Pull Day (Back/Biceps)", some "Back and biceps focus",
    [⟨"Deadlift", 3, 5, none, none⟩,
     ⟨"Bent-over Row", 4, 8, none, none⟩,
     ⟨"Lat Pulldown", 3, 10, none, none⟩,
     ⟨"Face Pulls", 3, 15, none, none⟩,
     ⟨"Bicep Curl", 3, 12, none, none⟩], some "Intermediate"⟩,
   ⟨"Leg Day", some "Quads, hamstrings, glutes",
    [⟨"Squat", 4, 6, none, none⟩,
     ⟨"Romanian Deadlift", 3, 8, none, none⟩,
     ⟨"Leg Press", 3, 12, none, none⟩,
     ⟨"Leg Curl", 3, 12, none, none⟩,
     ⟨"Calf Raise", 4, 15, none, none⟩], some "Intermediate"⟩]

/-- The JSON object a seeding call returns: a `seeded` count and an optional
message. -/
structure SeedResult where
  seeded : Nat
  message : Option String
deriving DecidableEq, Repr

/-- POST /api/templates/seed (src/main.py seed_templates): count the stored
templates; only when the collection is empty, insert every prebuilt template
in order and report how many, otherwise change nothing and report zero with
a message. -/
def seed_templates (st : List WorkoutTemplate) : List WorkoutTemplate × SeedResult :=
  if st.length = 0 then
    (st ++ PREBUILT_TEMPLATES, ⟨PREBUILT_TEMPLATES.length, none⟩)
  else
    (st, ⟨0, some "Templates already exist"⟩)

/-- C5: seeding an empty template collection inserts exactly the 3 prebuilt
documents and returns seeded = 3; seeding a non-empty collection performs no
insert (state unchanged) and returns seeded = 0 with a message. -/
theorem seed_templates_spec :
    (seed_templates [] = (PREBUILT_TEMPLATES, ⟨3, none⟩) ∧
      (seed_templates []).1.length = 3) ∧
    (∀ st : List WorkoutTemplate, st ≠ [] →
      seed_templates st = (st, ⟨0, some "Templates already exist"⟩)) := by
  refine ⟨⟨rfl, rfl⟩, fun st h => ?_⟩
  simp [seed_templates, List.length_eq_zero, h]

theorem seed_templates_spec_witness :
    seed_templates PREBUILT_TEMPLATES =
      (PREBUILT_TEMPLATES, ⟨0, some "Templates already exist"⟩) :=
  seed_templates_spec.2 PREBUILT_TEMPLATES (by simp [PREBUILT_TEMPLATES])

/-!
## Template search (src/main.py list_templates)
-/

/-- Does `pat` occur as a contiguous run inside `hay`? -/
def containsSub (pat : List Char) : List Char → Bool
  | [] => pat.isEmpty
  | c :: rest => pat.isPrefixOf (c :: rest) || containsSub pat rest

/-- Case-insensitive substring test: does `pat` appear inside `hay` ignoring
case? -/
def ciContains (hay pat : String) : Bool :=
  containsSub (pat.toList.map Char.toLower) (hay.toList.map Char.toLower)

/-- The filter document list_templates builds: empty (match-all), or a $or
of two case-insensitive regex conditions over title and description. -/
inductive TemplateFilter where
  | matchAll
  | searchTitleDesc (q : String)
deriving DecidableEq, Repr

/-- Filter construction from src/main.py list_templates: `if q:` — an absent
or empty (falsy) query yields the empty match-all filter, any other query
the title/description $or filter. -/
def buildTemplateFilter (q : Option String) : TemplateFilter :=
  match q with
  | none => TemplateFilter.matchAll
  | some s =>
      if s = "" then TemplateFilter.matchAll else TemplateFilter.searchTitleDesc s

/-- Modelled from the spec: evaluation of the filter by the document store
(database.get_documents and the store's matcher are not part of src/). Per
spec §4.2 the template-search predicate is a case-insensitive substring
match against title or description, and the empty filter matches every
document; a condition on an absent optional field does not match. -/
def filterMatches : TemplateFilter → WorkoutTemplate → Bool
  | TemplateFilter.matchAll, _ => true
  | TemplateFilter.searchTitleDesc q, t =>
      ciContains t.title q ||
        (match t.description with
         | some d => ciContains d q
         | none => false)

/-- GET /api/templates (src/main.py list_templates): the stored templates
matching the built filter. -/
def list_templates (st : List WorkoutTemplate) (q : Option String) :
    List WorkoutTemplate :=
  st.filter (filterMatches (buildTemplateFilter q))

/-- The three stored templates of the claim's example. -/
def pushDayDoc : WorkoutTemplate := ⟨"Push Day", none, [], none⟩

def pullDayDoc : WorkoutTemplate := ⟨"Pull Day", none, [], none⟩

def legDayDoc : WorkoutTemplate := ⟨"Leg Day", none, [], none⟩

/-- C3: for a non-empty query `q`, template search returns exactly the
stored templates whose title or description contains `q` as a
case-insensitive substring; an absent `q` returns every stored template; on
the stored titles "Push Day", "Pull Day", "Leg Day", the query "Push"
matches only "Push Day". -/
theorem template_search_substring (st : List WorkoutTemplate) (q : String)
    (hq : q ≠ "") :
    list_templates st (some q) =
      st.filter (fun t => ciContains t.title q ||
        (match t.description with | some d => ciContains d q | none => false)) ∧
    list_templates st none = st ∧
    list_templates [pushDayDoc, pullDayDoc, legDayDoc] (some "Push") =
      [pushDayDoc] := by
  refine ⟨?_, ?_, ?_⟩
  · rw [list_templates, buildTemplateFilter, if_neg hq]
    rfl
  · simp [list_templates, buildTemplateFilter, filterMatches]
  · rfl

theorem template_search_substring_witness :
    list_templates [pushDayDoc, pullDayDoc, legDayDoc] (some "Push") =
      [pushDayDoc] :=
  (template_search_substring [] "Push" (by decide)).2.2

/-- C10: the empty-string query is falsy for `if q:`, so q = "" builds the
very same match-all filter as an absent query, and template listing agrees
on every store. -/
theorem template_search_empty_query (st : List WorkoutTemplate) :
    buildTemplateFilter (some "") = buildTemplateFilter none ∧
    buildTemplateFilter (some "") = TemplateFilter.matchAll ∧
    list_templates st (some "") = list_templates st none :=
  ⟨rfl, rfl, rfl⟩

/-!
## Session listing (src/main.py list_sessions)
-/

/-- FastAPI validation of the `limit` query parameter
(`Query(50, ge=1, le=200)` in src/main.py list_sessions): an absent limit
defaults to 50; a supplied limit outside 1–200 is rejected with a
validation error. -/
def parseLimit (v : Option Int) : Except FieldError Int :=
  match v with
  | none => Except.ok 50
  | some x =>
      if x < 1 then Except.error ⟨"limit", "ge"⟩
      else if 200 < x then Except.error ⟨"limit", "le"⟩
      else Except.ok x

/-- Modelled from the spec: `getDocuments(collectionName, filterPredicate,
limit?)` of the Document Store Gateway (database.py is not part of src/) —
the documents matching the predicate, capped at `limit` when one is
given. -/
def getDocuments (st : List Doc) (pred : Doc → Bool) (lim : Option Nat) : List Doc :=
  match lim with
  | none => st.filter pred
  | some n => (st.filter pred).take n

/-- The exact-match user_id filter list_sessions builds. -/
def sessionMatches (uid : String) (d : Doc) : Bool :=
  lookupKey "user_id" d == some (Val.vStr uid)

/-- GET /api/sessions (src/main.py list_sessions): validate `limit`, read
the documents matching `user_id` capped at the limit, and return their
public form. -/
def list_sessions (st : List Doc) (uid : String) (lim : Option Int) :
    Except FieldError (List Doc) :=
  match parseLimit lim with
  | Except.error e => Except.error e
  | Except.ok l =>
      Except.ok ((getDocuments st (sessionMatches uid) (some l.toNat)).map to_public)

/-- C4 counterexample: a supplied limit of 500 is rejected with a
validation error — it is not brought into the 1–200 range as the claim
says. -/
theorem list_sessions_clamp_cex :
    list_sessions [] "u1" (some 500) = Except.error ⟨"limit", "le"⟩ := rfl

/-- C4 (amended): the `limit` parameter defaults to 50 when absent and is
validated against the inclusive range 1–200 (out-of-range values are
rejected, not clamped); whenever it validates, session listing succeeds
with at most `limit` documents, each matching `user_id` exactly. -/
theorem list_sessions_limit (st : List Doc) (uid : String) (lim : Option Int)
    (l : Int) (h : parseLimit lim = Except.ok l) :
    (1 ≤ l ∧ l ≤ 200) ∧ (lim = none → l = 50) ∧
    ∃ docs, list_sessions st uid lim = Except.ok docs ∧
      docs.length ≤ l.toNat ∧
      ∀ d ∈ docs, lookupKey "user_id" d = some (Val.vStr uid) := by
  have hb : (1 ≤ l ∧ l ≤ 200) ∧ (lim = none → l = 50) := by
    cases lim with
    | none =>
        simp only [parseLimit] at h
        injection h with h
        subst h
        exact ⟨by omega, fun _ => rfl⟩
    | some x =>
        simp only [parseLimit] at h
        by_cases h1 : x < 1
        · rw [if_pos h1] at h
          exact Except.noConfusion h
        · rw [if_neg h1] at h
          by_cases h2 : 200 < x
          · rw [if_pos h2] at h
            exact Except.noConfusion h
          · rw [if_neg h2] at h
            injection h with h
            subst h
            exact ⟨⟨by omega, by omega⟩, fun hc => Option.noConfusion hc⟩
  refine ⟨hb.1, hb.2, (getDocuments st (sessionMatches uid) (some l.toNat)).map to_public,
    ?_, ?_, ?_⟩
  · unfold list_sessions
    rw [h]
  · rw [List.length_map]
    unfold getDocuments
    rw [List.length_take]
    exact min_le_left _ _
  · intro d hd
    obtain ⟨d2, hd2, rfl⟩ := List.mem_map.mp hd
    have hmem : d2 ∈ (st.filter (sessionMatches uid)) :=
      List.take_subset _ _ hd2
    have hpred : sessionMatches uid d2 = true := (List.mem_filter.mp hmem).2
    have huid : lookupKey "user_id" d2 = some (Val.vStr uid) := by
      simpa [sessionMatches] using hpred
    rw [lookupKey_to_public_of_ne d2 "user_id" (by decide) (by decide), huid]

/-- A store holding one session document for user u1. -/
def oneSessionStore : List Doc := [[("user_id", Val.vStr "u1")]]

theorem list_sessions_limit_witness :
    (1 ≤ (50 : Int) ∧ (50 : Int) ≤ 200) ∧
      ((none : Option Int) = none → (50 : Int) = 50) ∧
      ∃ docs, list_sessions oneSessionStore "u1" none = Except.ok docs ∧
        docs.length ≤ (50 : Int).toNat ∧
        ∀ d ∈ docs, lookupKey "user_id" d = some (Val.vStr "u1") :=
  list_sessions_limit oneSessionStore "u1" none 50 rfl

/-!
## External nutrition normalizer (src/main.py search_food / food_by_barcode)

Both endpoints share the same per-product normalization of an
OpenFoodFacts record into the item dict they return. Numeric nutrient
values are modelled as rationals; Python's `float(...)` coercion is the
identity on them.
-/

/-- The `nutriments` sub-object of an external product record; each field
may be absent (or JSON null, which `dict.get` also surfaces as absent). -/
structure Nutriments where
  energyKcal100g : Option ℚ
  energyKcalServing : Option ℚ
  proteins100g : Option ℚ
  carbohydrates100g : Option ℚ
  fat100g : Option ℚ
deriving DecidableEq, Repr

/-- An external product record as both endpoints read it. -/
structure Product where
  code : Option String
  product_name : Option String
  generic_name : Option String
  brands : Option String
  nutriments : Nutriments
  serving_size : Option String
deriving DecidableEq, Repr

/-- The normalized item object the nutrition endpoints return. -/
structure FoodItemOut where
  barcode : Option String
  name : String
  brand : Option String
  calories : ℚ
  protein : ℚ
  carbs : ℚ
  fat : ℚ
  serving_size : Option String
deriving DecidableEq, Repr

/-- Python `a or b` on optional numerics: `a` when present and nonzero
(truthy), otherwise `b` as-is. -/
def pyOrOptQ (a b : Option ℚ) : Option ℚ :=
  match a with
  | some v => if v = 0 then b else some v
  | none => b

/-- Python `x or 0` on a numeric: zero stays zero, anything else is
itself. -/
def pyOrZero (x : ℚ) : ℚ :=
  if x = 0 then 0 else x

/-- Python truthiness of an optional string: the empty string is falsy. -/
def truthyStr : Option String → Option String
  | some s => if s = "" then none else some s
  | none => none

/-- The shared normalization of one product record (the item dict built in
search_food and food_by_barcode): name precedence product_name, else
generic_name, else "Unknown" (empty strings falsy); calories from
`energy-kcal_100g or energy-kcal_serving`, defaulting to 0 when the result
is absent; each macro from its per-100g value with `get(..., 0) or 0`;
barcode, brand and serving_size passed through. -/
def normalizeProduct (p : Product) : FoodItemOut :=
  { barcode := p.code
    name :=
      match truthyStr p.product_name with
      | some s => s
      | none =>
          match truthyStr p.generic_name with
          | some s => s
          | none => "Unknown"
    brand := p.brands
    calories :=
      match pyOrOptQ p.nutriments.energyKcal100g p.nutriments.energyKcalServing with
      | some v => v
      | none => 0
    protein := pyOrZero (p.nutriments.proteins100g.getD 0)
    carbs := pyOrZero (p.nutriments.carbohydrates100g.getD 0)
    fat := pyOrZero (p.nutriments.fat100g.getD 0)
    serving_size := p.serving_size }

/-- GET /api/food/search (src/main.py search_food): normalize every product
of the external response. -/
def search_food (products : List Product) : List FoodItemOut :=
  products.map normalizeProduct

/-- A product record with every field absent, i.e. the empty dict `{}`. -/
def emptyProduct : Product :=
  ⟨none, none, none, none, ⟨none, none, none, none, none⟩, none⟩

/-- The external barcode response: `data.get("product")`. -/
structure BarcodeResponse where
  product : Option Product
deriving DecidableEq, Repr

/-- GET /api/food/barcode/{code} (src/main.py food_by_barcode): normalize
`data.get("product") or {}` — a missing (or empty, equally falsy) product
record is replaced by the empty record. The endpoint always returns an
item; there is no not-found error path. -/
def food_by_barcode (resp : BarcodeResponse) : FoodItemOut :=
  normalizeProduct (resp.product.getD emptyProduct)

/-- A product whose per-100g energy is present but zero while the
per-serving energy is 100. -/
def zeroKcal100gProduct : Product :=
  ⟨some "123", some "Thing", none, none, ⟨some 0, some 100, none, none, none⟩, none⟩

/-- C2 counterexample: the claim says calories equal the per-100g energy
value whenever that field is present; but with per-100g present and equal
to 0 and per-serving 100, the code's Python `or` treats 0 as falsy and
returns 100, not 0. -/
theorem calories_precedence_cex :
    (normalizeProduct zeroKcal100gProduct).calories = 100 ∧
      (normalizeProduct zeroKcal100gProduct).calories ≠ 0 := by
  constructor <;>
    norm_num [normalizeProduct, zeroKcal100gProduct, pyOrOptQ]

/-- The amended calorie rule, in the spec's words changed only where the
counterexample forces it: the per-100g energy value when present and
nonzero, else the per-serving energy value when present, else 0. -/
def caloriesAmended (e100 eServ : Option ℚ) : ℚ :=
  match e100 with
  | some v => if v = 0 then eServ.getD 0 else v
  | none => eServ.getD 0

/-- The example payload of the claim: `proteins_100g` absent and
`energy-kcal_100g = 250`. -/
def kcal250Product : Product :=
  ⟨some "456", some "Oats", none, none, ⟨some 250, none, none, none, none⟩, none⟩

/-- C2 (amended): for every product record, the normalized calories equal
the per-100g energy value when present and nonzero (Python truthiness),
else the per-serving energy value when present, else 0; in particular the
claim's example — proteins_100g absent, energy-kcal_100g = 250 —
normalizes to calories 250 and protein 0. -/
theorem calories_precedence (p : Product) :
    (normalizeProduct p).calories =
      caloriesAmended p.nutriments.energyKcal100g p.nutriments.energyKcalServing ∧
    (normalizeProduct kcal250Product).calories = 250 ∧
    (normalizeProduct kcal250Product).protein = 0 := by
  refine ⟨?_, ?_, ?_⟩
  · cases h1 : p.nutriments.energyKcal100g with
    | none =>
        cases h2 : p.nutriments.energyKcalServing with
        | none => simp [normalizeProduct, caloriesAmended, pyOrOptQ, h1, h2]
        | some w => simp [normalizeProduct, caloriesAmended, pyOrOptQ, h1, h2]
    | some v =>
        by_cases hv : v = 0
        · cases h2 : p.nutriments.energyKcalServing with
          | none => simp [normalizeProduct, caloriesAmended, pyOrOptQ, h1, h2, hv]
          | some w => simp [normalizeProduct, caloriesAmended, pyOrOptQ, h1, h2, hv]
        · simp [normalizeProduct, caloriesAmended, pyOrOptQ, h1, hv]
  · norm_num [normalizeProduct, kcal250Product, pyOrOptQ]
  · norm_num [normalizeProduct, kcal250Product, pyOrZero]

/-- The zero-valued item the barcode endpoint builds from an absent
product. -/
def placeholderItem : FoodItemOut :=
  ⟨none, "Unknown", none, 0, 0, 0, 0, none⟩

/-- C9: a barcode lookup whose external response carries no product record
returns the zero-valued placeholder item (name "Unknown", zero calories and
macros, absent barcode/brand/serving_size) — the endpoint's only outcome on
such a response, with no not-found error path; an empty product record
behaves identically. -/
theorem barcode_not_found_placeholder :
    food_by_barcode ⟨none⟩ = placeholderItem ∧
      food_by_barcode ⟨some emptyProduct⟩ = placeholderItem := by
  constructor <;>
    norm_num [food_by_barcode, normalizeProduct, emptyProduct, placeholderItem,
      pyOrOptQ, pyOrZero, truthyStr]
